import Mathlib

/-!
Verification of the `urlshortner-microservices` repository.

Shallow embedding of the two services present in the sources:

* `go-service/main.go` — the Redirect/Creation Service (Gin + SQLite):
  short-code generation (`generateShortCode`), code allocation with the
  collision-retry loop and insertion (`createShortURL`), redirect lookup
  (`redirect`), and the fire-and-forget click notification
  (`sendClickEvent`).
* the Node.js Metadata Service (Express + Cheerio): the metadata
  extraction fallback chains (`fetchUrlMetadata`) and the
  `POST /api/metadata` handler.

The SQLite `urls` table is modelled as an association list kept in
insertion order (SQLite scans rows in rowid = insertion order for these
queries); the stream of values produced by `crypto/rand` is passed in
explicitly (a list of byte vectors / a list of pre-generated codes);
database failures are injected as explicit booleans; outbound HTTP
outcomes are an explicit parameter of the handler.
-/

/-! ## Go service: data model -/

/-- A row of the `urls` table: `(short_code, long_url)`.  The store is the
list of rows in insertion order. -/
abbrev Store := List (String × String)

/-- `SELECT long_url FROM urls WHERE short_code = ?` followed by `Scan`:
the first row whose `short_code` matches, if any. -/
def lookupLongURL (s : Store) (code : String) : Option String :=
  (s.find? (fun row => row.1 == code)).map (fun row => row.2)

/-- `SELECT COUNT(*) FROM urls WHERE short_code = ?`. -/
def countCode (s : Store) (code : String) : Nat :=
  (s.filter (fun row => row.1 == code)).length

/-! ## Go service: short-code generation (`generateShortCode`) -/

/-- The URL-safe base64 alphabet used by Go's `base64.URLEncoding`
(RFC 4648 §5). -/
def b64urlAlphabet : List Char :=
  "ABCDEFGHIJKLMNOPQRSTUVWXYZabcdefghijklmnopqrstuvwxyz0123456789-_".toList

/-- Character of the URL-safe base64 alphabet at index `i` (`i < 64` in
every use arising from byte input). -/
def b64char (i : Nat) : Char :=
  b64urlAlphabet.getD i '?'

/-- `base64.URLEncoding.EncodeToString` on a byte sequence (bytes as
`Nat < 256`), including the `=` padding Go appends for a final partial
group. -/
def base64urlEncode : List Nat → List Char
  | [] => []
  | [b0] =>
      [b64char (b0 / 4), b64char (b0 % 4 * 16), '=', '=']
  | [b0, b1] =>
      [b64char (b0 / 4), b64char (b0 % 4 * 16 + b1 / 16),
       b64char (b1 % 16 * 4), '=']
  | b0 :: b1 :: b2 :: rest =>
      b64char (b0 / 4) :: b64char (b0 % 4 * 16 + b1 / 16) ::
      b64char (b1 % 16 * 4 + b2 / 64) :: b64char (b2 % 64) ::
      base64urlEncode rest

/-- `generateShortCode`: encode the 6 bytes read from `crypto/rand`
(passed explicitly) and keep the first 6 characters (`encoded[:6]`). -/
def generateShortCode (bytes : List Nat) : String :=
  String.mk ((base64urlEncode bytes).take 6)

/-! ## Go service: HTTP layer -/

/-- The JSON body of a successful `POST /api/shorten` response. -/
structure ShortenResponse where
  short_code : String
  short_url : String
  long_url : String
  deriving Repr, DecidableEq

/-- A response produced by the Go service's handlers. -/
inductive GoResp where
  /-- `c.JSON(status, gin.H{"error": msg})` -/
  | jsonErr (status : Nat) (msg : String)
  /-- `c.JSON(http.StatusOK, response)` -/
  | jsonOk (body : ShortenResponse)
  /-- `c.Redirect(status, location)` -/
  | redirectResp (status : Nat) (location : String)
  deriving Repr, DecidableEq

/-! ## Go service: `createShortURL` (POST /api/shorten) -/

/-- The collision-retry loop of `createShortURL`, lines 75–89: draw a code,
check `COUNT(*)`, and redraw while the count is positive.  The stream of
codes produced by successive `generateShortCode()` calls is passed as
`draws`; `none` models the execution in which every available draw
collides (the Go loop would still be running). -/
def allocCode (s : Store) : List String → Option String
  | [] => none
  | c :: rest => if countCode s c > 0 then allocCode s rest else some c

/-- `createShortURL` after a successful JSON bind, lines 75–105.
`checkOk` injects the error of the first `QueryRow ... Scan` (any failure
there returns 500 before the loop); `insertOk` injects the error of the
`INSERT`.  The result is the response plus the store after the call;
`none` models the non-terminating execution in which the loop never finds
a fresh code. -/
def createShortURL (checkOk insertOk : Bool) (draws : List String)
    (s : Store) (longUrl : String) : Option (GoResp × Store) :=
  if !checkOk then
    some (.jsonErr 500 "Database error", s)
  else
    match allocCode s draws with
    | none => none
    | some c =>
        if insertOk then
          some (.jsonOk ⟨c, "http://localhost:8000/" ++ c, longUrl⟩,
                s ++ [(c, longUrl)])
        else
          some (.jsonErr 500 "Failed to create short URL", s)

/-! ## Go service: `redirect` (GET /:code) and `sendClickEvent` -/

/-- Outcome of `db.QueryRow("SELECT long_url ...").Scan(&longURL)`:
`found`, `sql.ErrNoRows`, or any other error. -/
inductive ScanResult where
  | found (url : String)
  | noRows
  | dbError
  deriving Repr, DecidableEq

/-- The scan of the `urls` row for `code`; `dbOk = false` injects a
database failure (any error other than `ErrNoRows`). -/
def scanLongURL (dbOk : Bool) (s : Store) (code : String) : ScanResult :=
  if dbOk then
    match lookupLongURL s code with
    | some url => .found url
    | none => .noRows
  else
    .dbError

/-- Outcome of the outbound `client.Post` to the Analytics Service
(`sendClickEvent`, lines 140–152). -/
inductive NotifyOutcome where
  | delivered
  | timeout
  | connError
  | non2xx (status : Nat)
  deriving Repr, DecidableEq

/-- The JSON body posted to `POST {analytics}/api/events`. -/
structure ClickEvent where
  short_code : String
  clicked_at : String
  deriving Repr, DecidableEq

/-- Observable effect of one `sendClickEvent` call: the single event it
posts, the number of `client.Post` attempts, and the log lines. -/
structure NotifyEffect where
  event : ClickEvent
  attempts : Nat
  logs : List String
  deriving Repr, DecidableEq

/-- `sendClickEvent`, lines 128–153: marshal `{short_code, clicked_at}`,
issue exactly one POST with a 2-second timeout, and log the outcome.
No branch retries, re-queues, or reports anything to the caller. -/
def sendClickEvent (code now : String) (outcome : NotifyOutcome) :
    NotifyEffect :=
  let event : ClickEvent := ⟨code, now⟩
  match outcome with
  | .delivered =>
      ⟨event, 1, ["Click event sent for short code: " ++ code]⟩
  | .timeout =>
      ⟨event, 1, ["Error sending event to Python service: timeout"]⟩
  | .connError =>
      ⟨event, 1, ["Error sending event to Python service: connection error"]⟩
  | .non2xx status =>
      ⟨event, 1, ["Python service returned status: " ++ toString status]⟩

/-- `redirect`, lines 107–126: resolve the code; 404 on `ErrNoRows`, 500 on
any other scan error, otherwise a 301 redirect to the stored URL together
with the spawned `go sendClickEvent` (whose outcome is a parameter). -/
def redirectHandler (dbOk : Bool) (s : Store) (code now : String)
    (outcome : NotifyOutcome) : GoResp × Option NotifyEffect :=
  match scanLongURL dbOk s code with
  | .noRows => (.jsonErr 404 "Short URL not found", none)
  | .dbError => (.jsonErr 500 "Database error", none)
  | .found url =>
      (.redirectResp 301 url, some (sendClickEvent code now outcome))

/-! ## Go service: operation sequences -/

/-- One externally triggered operation of the Redirect Service. -/
inductive Op where
  /-- `POST /api/shorten` with its injected DB outcomes and random draws. -/
  | shorten (checkOk insertOk : Bool) (draws : List String) (longUrl : String)
  /-- `GET /{code}`. -/
  | get (code : String)

/-- Effect of one operation on the `urls` store.  `GET` never writes; a
creation whose loop does not terminate (`none`) writes nothing. -/
def applyOp (s : Store) : Op → Store
  | .shorten checkOk insertOk draws longUrl =>
      match createShortURL checkOk insertOk draws s longUrl with
      | some (_, s') => s'
      | none => s
  | .get _ => s

/-! ## Node service: JS truthiness and the extraction fallback chains -/

/-- JavaScript truthiness of a string-valued expression that may be
`undefined` (modelled by `none`): `undefined` and the empty string are
falsy. -/
def jsTruthy : Option String → Bool
  | none => false
  | some s => s != ""

/-- JavaScript `String.prototype.trim`: drop whitespace from both ends
(modelled directly on the character list so that it is kernel-reducible
on concrete inputs). -/
def jsTrim (s : String) : String :=
  String.mk
    (((s.toList.dropWhile Char.isWhitespace).reverse.dropWhile
        Char.isWhitespace).reverse)

/-- The title chain of `fetchUrlMetadata`, lines 60–67:
`$('title').text().trim()`, else the `og:title` meta content (an
attribute lookup that may yield `undefined`), else the literal
`'No title found'` — each step taken only when the previous value is
falsy. -/
def extractTitle (titleText : String) (ogTitle : Option String) : String :=
  let t0 : Option String := some (jsTrim titleText)
  let t1 : Option String := if jsTruthy t0 then t0 else ogTitle
  let t2 : Option String := if jsTruthy t1 then t1 else some "No title found"
  t2.getD ""

/-- The description chain, lines 69–76: `description` meta content, else
`og:description` content, else `'No description available'`. -/
def extractDescription (metaDesc ogDesc : Option String) : String :=
  let d1 : Option String := if jsTruthy metaDesc then metaDesc else ogDesc
  let d2 : Option String :=
    if jsTruthy d1 then d1 else some "No description available"
  d2.getD ""

/-- The relevant observations Cheerio makes on a successfully fetched
document: the `<title>` text, the meta contents, and the `href` of each
of the five favicon selectors tried in order (`attr` may yield
`undefined`). -/
structure HtmlDoc where
  titleText : String
  ogTitle : Option String
  metaDescription : Option String
  ogDescription : Option String
  relIcon : Option String
  relShortcutIcon : Option String
  relAppleTouchIcon : Option String
  relIconPng : Option String
  relIconXIcon : Option String
  deriving Repr, DecidableEq

/-- The `href` results of the five favicon selectors, in the order the
`faviconSelectors` array tries them (lines 82–88). -/
def selectorHrefs (doc : HtmlDoc) : List (Option String) :=
  [doc.relIcon, doc.relShortcutIcon, doc.relAppleTouchIcon,
   doc.relIconPng, doc.relIconXIcon]

/-- The selector loop of lines 90–93: `faviconUrl` is overwritten by each
selector's `href` and the loop breaks at the first truthy one.  A falsy
value left in `faviconUrl` when the loop ends (empty string or
`undefined`) is indistinguishable from `none` downstream, since line 96
tests `!faviconUrl`. -/
def firstTruthy : List (Option String) → Option String
  | [] => none
  | href :: rest => if jsTruthy href then href else firstTruthy rest

/-- JavaScript `String.prototype.startsWith` (modelled on the character
list so that it is kernel-reducible on concrete inputs). -/
def jsStartsWith (s p : String) : Bool :=
  p.toList.isPrefixOf s.toList

/-- The `protocol` (with trailing colon, as in `new URL(u).protocol`) and
`hostname` of the target URL. -/
structure UrlParts where
  protocol : String
  hostname : String
  deriving Repr, DecidableEq

/-- The favicon logic of lines 79–107: first truthy selector `href`; if
none, synthesize `{protocol}//{hostname}/favicon.ico`; a leading-slash
`href` is prefixed with `{protocol}//{hostname}`; an `href` not starting
with `http` is prefixed with `{protocol}//{hostname}/`; otherwise the
`href` is kept as is. -/
def extractFavicon (doc : HtmlDoc) (u : UrlParts) : String :=
  match firstTruthy (selectorHrefs doc) with
  | none => u.protocol ++ "//" ++ u.hostname ++ "/favicon.ico"
  | some h =>
      if jsStartsWith h "/" then u.protocol ++ "//" ++ u.hostname ++ h
      else if !(jsStartsWith h "http") then
        u.protocol ++ "//" ++ u.hostname ++ "/" ++ h
      else h

/-! ## Node service: `fetchUrlMetadata` and `POST /api/metadata` -/

/-- The value `fetchUrlMetadata` resolves with. -/
structure PageMeta where
  title : String
  description : String
  favicon_url : Option String
  deriving Repr, DecidableEq

/-- Outcome of the `axios.get` + `cheerio.load` of the target URL:
either the parsed document, or any fetch/parse error (timeout, DNS,
non-2xx, malformed response, ...). -/
inductive FetchOutcome where
  | success (doc : HtmlDoc)
  | failure (msg : String)
  deriving Repr, DecidableEq

/-- `fetchUrlMetadata`, lines 46–123: on success, run the three fallback
chains and cap title/description at 200/500 characters; on any error,
return the fixed placeholder object with a `null` favicon. -/
def fetchUrlMetadata (u : UrlParts) (outcome : FetchOutcome) : PageMeta :=
  match outcome with
  | .success doc =>
      ⟨(extractTitle doc.titleText doc.ogTitle).take 200,
       (extractDescription doc.metaDescription doc.ogDescription).take 500,
       some (extractFavicon doc u)⟩
  | .failure _ =>
      ⟨"Unable to fetch title", "Could not retrieve page information", none⟩

/-- A row of the `metadata` table, keyed by `short_code`. -/
structure MetaRecord where
  url : String
  title : String
  description : String
  favicon_url : Option String
  deriving Repr, DecidableEq

/-- The `metadata` table: rows keyed by `short_code` (UNIQUE). -/
abbrev MetaStore := List (String × MetaRecord)

/-- `INSERT OR REPLACE INTO metadata ...`: the conflicting row (if any) is
dropped and the new row is inserted. -/
def upsertMeta (st : MetaStore) (code : String) (r : MetaRecord) :
    MetaStore :=
  (st.filter (fun row => row.1 != code)) ++ [(code, r)]

/-- `SELECT * FROM metadata WHERE short_code = ?`. -/
def lookupMeta (st : MetaStore) (code : String) : Option MetaRecord :=
  (st.find? (fun row => row.1 == code)).map (fun row => row.2)

/-- The JSON body of a successful `POST /api/metadata` response
(`{short_code, url, ...metadata, status: 'success'}`). -/
structure MetaBody where
  short_code : String
  url : String
  title : String
  description : String
  favicon_url : Option String
  status : String
  deriving Repr, DecidableEq

/-- A response of the metadata endpoint: `res.status(n).json({error})` or
the plain `res.json(...)` (HTTP 200). -/
inductive MetaResp where
  | err (status : Nat) (msg : String)
  | ok (body : MetaBody)
  deriving Repr, DecidableEq

/-- The HTTP status of a `MetaResp` (`res.json` without `.status` is 200). -/
def metaRespStatus : MetaResp → Nat
  | .err status _ => status
  | .ok _ => 200

/-- The `POST /api/metadata` handler, lines 126–159: 400 when either body
field is falsy; otherwise fetch (outcome injected), upsert the result
under `short_code`, and answer 200 with the metadata and
`status: 'success'`; a `db.run` error (`dbOk = false`) answers 500 and
the callback returns before `res.json`. -/
def postMetadata (st : MetaStore) (short_code long_url : Option String)
    (u : UrlParts) (outcome : FetchOutcome) (dbOk : Bool) :
    MetaResp × MetaStore :=
  if !(jsTruthy short_code && jsTruthy long_url) then
    (.err 400 "short_code and long_url are required", st)
  else
    let sc := short_code.getD ""
    let lu := long_url.getD ""
    let m := fetchUrlMetadata u outcome
    if dbOk then
      (.ok ⟨sc, lu, m.title, m.description, m.favicon_url, "success"⟩,
       upsertMeta st sc ⟨lu, m.title, m.description, m.favicon_url⟩)
    else
      (.err 500 "Failed to store metadata", st)

/-! ## Claim-side (spec-worded) definitions for refinement checks -/

/-- The title fallback chain exactly as claim C7 words it: the trimmed
primary title when non-empty, otherwise the `og:title` content whenever
the tag is PRESENT (regardless of its content), otherwise the fixed
placeholder. -/
def claimExtractTitle (titleText : String) (ogTitle : Option String) :
    String :=
  if jsTrim titleText != "" then jsTrim titleText
  else
    match ogTitle with
    | some s => s
    | none => "No title found"

/-! ## Helper lemmas -/

theorem b64urlAlphabet_length : b64urlAlphabet.length = 64 := by decide

theorem b64char_mem (i : Nat) (h : i < 64) : b64char i ∈ b64urlAlphabet := by
  have h2 : i < b64urlAlphabet.length := by
    rw [b64urlAlphabet_length]; exact h
  rw [b64char, List.getD_eq_getElem?_getD, List.getElem?_eq_getElem h2]
  exact List.getElem_mem h2

theorem allocCode_mem (s : Store) (draws : List String) (c : String)
    (h : allocCode s draws = some c) : c ∈ draws := by
  induction draws with
  | nil => simp [allocCode] at h
  | cons d rest ih =>
      rw [allocCode] at h
      by_cases hd : countCode s d > 0
      · simp only [hd, if_pos] at h
        exact List.mem_cons_of_mem _ (ih h)
      · simp only [hd, if_neg, not_false_iff] at h
        cases h
        exact List.mem_cons_self _ _

theorem allocCode_fresh (s : Store) (draws : List String) (c : String)
    (h : allocCode s draws = some c) : countCode s c = 0 := by
  induction draws with
  | nil => simp [allocCode] at h
  | cons d rest ih =>
      rw [allocCode] at h
      by_cases hd : countCode s d > 0
      · simp only [hd, if_pos] at h
        exact ih h
      · simp only [hd, if_neg, not_false_iff] at h
        cases h
        omega

/-! ## C1: sequential creation only inserts codes absent from the store -/

/-- C1.  In a sequential `POST /api/shorten` call (no injected DB errors),
the code the allocator settles on has `COUNT(*) = 0` in the store at the
time of its existence check — colliding draws are discarded by the retry
loop — and the handler then inserts exactly the `(code, target)` row. -/
theorem create_inserts_fresh_code (s : Store) (draws : List String)
    (longUrl c : String) (h : allocCode s draws = some c) :
    countCode s c = 0 ∧
    createShortURL true true draws s longUrl =
      some (.jsonOk ⟨c, "http://localhost:8000/" ++ c, longUrl⟩,
            s ++ [(c, longUrl)]) := by
  refine ⟨allocCode_fresh s draws c h, ?_⟩
  simp [createShortURL, h]

/-- Witness for C1: with `"abc123"` already in the store, the allocator
rejects the colliding first draw and inserts the second draw. -/
theorem create_inserts_fresh_code_witness :
    countCode [("abc123", "https://example.org")] "XYZ-09" = 0 ∧
    createShortURL true true ["abc123", "XYZ-09"]
        [("abc123", "https://example.org")] "https://target.example" =
      some (.jsonOk ⟨"XYZ-09", "http://localhost:8000/XYZ-09",
                     "https://target.example"⟩,
            [("abc123", "https://example.org"),
             ("XYZ-09", "https://target.example")]) :=
  create_inserts_fresh_code _ _ _ _ (by decide)

/-! ## C3: the retry loop terminates iff a fresh draw eventually occurs -/

/-- C3.  The collision loop has no retry cap and no failure path: the
allocation terminates (`isSome`) exactly when the stream of drawn codes
contains some code with no matching row — whatever its position — and
under no weaker condition: when every available draw collides, the loop
is still running (`none`). -/
theorem allocCode_terminates_iff (s : Store) (draws : List String) :
    (allocCode s draws).isSome =
      draws.any (fun c => countCode s c == 0) := by
  induction draws with
  | nil => simp [allocCode]
  | cons d rest ih =>
      rw [allocCode, List.any_cons]
      by_cases hd : countCode s d > 0
      · have hz : (countCode s d == 0) = false := by
          simp only [beq_eq_false_iff_ne, ne_eq]
          omega
        simp [hd, hz, ih]
      · have hz : (countCode s d == 0) = true := by
          simp only [beq_iff_eq]
          omega
        simp [hd, hz]

/-! ## C2: codes have length 6 over the URL-safe base64 alphabet -/

theorem generateShortCode_spec (bs : List Nat) (hlen : bs.length = 6)
    (hb : ∀ b ∈ bs, b < 256) :
    (generateShortCode bs).length = 6 ∧
    ∀ ch ∈ (generateShortCode bs).toList, ch ∈ b64urlAlphabet := by
  rcases bs with _ | ⟨b0, _ | ⟨b1, _ | ⟨b2, _ | ⟨b3, _ | ⟨b4, _ | ⟨b5, _ | ⟨b6, tail⟩⟩⟩⟩⟩⟩⟩ <;>
    simp only [List.length] at hlen <;> try omega
  have h0 : b0 < 256 := hb b0 (by simp)
  have h1 : b1 < 256 := hb b1 (by simp)
  have h2 : b2 < 256 := hb b2 (by simp)
  have h3 : b3 < 256 := hb b3 (by simp)
  have h4 : b4 < 256 := hb b4 (by simp)
  constructor
  · rfl
  · intro ch hch
    have hch' : ch ∈ [b64char (b0 / 4), b64char (b0 % 4 * 16 + b1 / 16),
        b64char (b1 % 16 * 4 + b2 / 64), b64char (b2 % 64),
        b64char (b3 / 4), b64char (b3 % 4 * 16 + b4 / 16)] := hch
    simp only [List.mem_cons, List.not_mem_nil, or_false] at hch'
    rcases hch' with rfl | rfl | rfl | rfl | rfl | rfl
    · exact b64char_mem _ (by omega)
    · exact b64char_mem _ (by omega)
    · exact b64char_mem _ (by omega)
    · exact b64char_mem _ (by omega)
    · exact b64char_mem _ (by omega)
    · exact b64char_mem _ (by omega)

/-- C2.  Whenever `POST /api/shorten` answers 200, the `short_code` of the
response body has length exactly 6 and each of its characters lies in the
URL-safe base64 alphabet — given that each candidate code in the random
stream is the result of `generateShortCode` applied to the 6 bytes that
`crypto/rand` produced for it. -/
theorem shorten_code_wellformed (draws : List String) (s : Store)
    (longUrl : String) (body : ShortenResponse) (s' : Store)
    (hdraws : ∀ d ∈ draws, ∃ bs, d = generateShortCode bs ∧
        bs.length = 6 ∧ ∀ b ∈ bs, b < 256)
    (hok : createShortURL true true draws s longUrl = some (.jsonOk body, s')) :
    body.short_code.length = 6 ∧
    ∀ ch ∈ body.short_code.toList, ch ∈ b64urlAlphabet := by
  rw [createShortURL] at hok
  simp only [Bool.not_true, Bool.false_eq_true, if_false, if_true] at hok
  cases halloc : allocCode s draws with
  | none => rw [halloc] at hok; cases hok
  | some c =>
      rw [halloc] at hok
      simp only [if_true, Option.some_inj, Prod.mk.injEq] at hok
      obtain ⟨hresp, hs'⟩ := hok
      injection hresp with hbody
      cases hbody
      obtain ⟨bs, hbs, hlen, hb⟩ := hdraws c (allocCode_mem s draws c halloc)
      simpa [hbs] using generateShortCode_spec bs hlen hb

/-- Witness for C2: a creation call whose two candidate draws come from
explicit byte vectors. -/
theorem shorten_code_wellformed_witness :
    (ShortenResponse.mk (generateShortCode [0, 16, 131, 16, 81, 135])
        ("http://localhost:8000/" ++ generateShortCode [0, 16, 131, 16, 81, 135])
        "https://example.com").short_code.length = 6 ∧
    ∀ ch ∈ (ShortenResponse.mk (generateShortCode [0, 16, 131, 16, 81, 135])
        ("http://localhost:8000/" ++ generateShortCode [0, 16, 131, 16, 81, 135])
        "https://example.com").short_code.toList, ch ∈ b64urlAlphabet :=
  shorten_code_wellformed [generateShortCode [0, 16, 131, 16, 81, 135]] []
    "https://example.com"
    (ShortenResponse.mk (generateShortCode [0, 16, 131, 16, 81, 135])
      ("http://localhost:8000/" ++ generateShortCode [0, 16, 131, 16, 81, 135])
      "https://example.com")
    [(generateShortCode [0, 16, 131, 16, 81, 135], "https://example.com")]
    (by
      intro d hd
      simp only [List.mem_singleton] at hd
      exact ⟨[0, 16, 131, 16, 81, 135], hd, by decide, by decide⟩)
    (by decide)

/-! ## C4: response taxonomy of GET /{code} -/

/-- C4.  The redirect endpoint: a store failure (any scan error other
than `ErrNoRows`) yields a 500 error; an absent code yields a 404 error;
a present code yields a 301 permanent redirect whose location is exactly
the stored long URL. -/
theorem redirect_response_cases (s : Store) (code now : String)
    (o : NotifyOutcome) :
    ((redirectHandler false s code now o).1 = .jsonErr 500 "Database error") ∧
    (lookupLongURL s code = none →
      (redirectHandler true s code now o).1 =
        .jsonErr 404 "Short URL not found") ∧
    (∀ url, lookupLongURL s code = some url →
      (redirectHandler true s code now o).1 = .redirectResp 301 url) := by
  refine ⟨rfl, ?_, ?_⟩
  · intro h
    simp [redirectHandler, scanLongURL, h]
  · intro url h
    simp [redirectHandler, scanLongURL, h]

/-- Witness for C4 at a concrete one-row store: unknown code → 404,
known code → 301 to the stored target. -/
theorem redirect_response_cases_witness :
    (redirectHandler true [("abc123", "https://example.com")] "zzzzzz"
        "2025-11-08T12:00:00Z" .delivered).1 =
      .jsonErr 404 "Short URL not found" ∧
    (redirectHandler true [("abc123", "https://example.com")] "abc123"
        "2025-11-08T12:00:00Z" .delivered).1 =
      .redirectResp 301 "https://example.com" :=
  ⟨(redirect_response_cases [("abc123", "https://example.com")] "zzzzzz"
      "2025-11-08T12:00:00Z" .delivered).2.1 (by decide),
   (redirect_response_cases [("abc123", "https://example.com")] "abc123"
      "2025-11-08T12:00:00Z" .delivered).2.2 "https://example.com" (by decide)⟩

/-! ## C5: the user-visible response is independent of the notification -/

/-- C5.  Two executions of `GET /{code}` on the same store and code that
differ only in the click-notification outcome (delivery, timeout,
connection failure, non-2xx) produce identical HTTP responses; and the
notification itself issues exactly one POST attempt whatever its outcome
— it is never retried or queued. -/
theorem redirect_independent_of_notify (dbOk : Bool) (s : Store)
    (code now : String) (o1 o2 : NotifyOutcome) :
    (redirectHandler dbOk s code now o1).1 =
      (redirectHandler dbOk s code now o2).1 ∧
    (sendClickEvent code now o1).attempts = 1 := by
  constructor
  · cases h : scanLongURL dbOk s code <;> simp [redirectHandler, h]
  · cases o1 <;> rfl

/-! ## C6: stored mappings are never updated or deleted -/

theorem lookupLongURL_append_of_some (s t : Store) (code url : String)
    (h : lookupLongURL s code = some url) :
    lookupLongURL (s ++ t) code = some url := by
  rw [lookupLongURL, List.find?_append]
  rw [lookupLongURL] at h
  cases hf : s.find? (fun row => row.1 == code) with
  | none => rw [hf] at h; cases h
  | some row => rw [hf] at h; simpa using h

theorem applyOp_preserves_lookup (s : Store) (code url : String) (op : Op)
    (h : lookupLongURL s code = some url) :
    lookupLongURL (applyOp s op) code = some url := by
  cases op with
  | get _ => exact h
  | shorten checkOk insertOk draws longUrl =>
      rw [applyOp, createShortURL]
      cases checkOk with
      | false => exact h
      | true =>
          simp only [Bool.not_true, Bool.false_eq_true, if_false]
          cases halloc : allocCode s draws with
          | none => exact h
          | some c =>
              cases insertOk with
              | false => exact h
              | true =>
                  simp only [if_true]
                  exact lookupLongURL_append_of_some s _ code url h

/-- C6.  A stored `(code, target)` mapping is never updated or deleted by
the Redirect Service: after any sequence of `POST /api/shorten` and
`GET /{code}` operations (with arbitrary injected DB outcomes and random
draws), a code that resolved to `url` still resolves to `url`. -/
theorem store_mapping_immutable (s : Store) (code url : String)
    (h : lookupLongURL s code = some url) (ops : List Op) :
    lookupLongURL (ops.foldl applyOp s) code = some url := by
  induction ops generalizing s with
  | nil => exact h
  | cons op rest ih =>
      exact ih (applyOp s op) (applyOp_preserves_lookup s code url op h)

/-- Witness for C6: a creation (which allocates a different code) and a
lookup leave the original mapping intact. -/
theorem store_mapping_immutable_witness :
    lookupLongURL
      ([Op.shorten true true ["abc123", "qq-_23"] "https://other.example",
        Op.get "abc123"].foldl applyOp
        [("abc123", "https://example.com")]) "abc123" =
      some "https://example.com" :=
  store_mapping_immutable [("abc123", "https://example.com")] "abc123"
    "https://example.com" (by decide)
    [Op.shorten true true ["abc123", "qq-_23"] "https://other.example",
     Op.get "abc123"]

/-! ## C7: the title fallback chain -/

/-- Counterexample to C7 as stated: for a document with no `<title>` text
and an `og:title` meta tag PRESENT but with empty `content`, the claim
says the extracted title equals the `og:title` content (the empty
string), but the code's truthiness test (`if (!title)`) treats the empty
content as absent and falls through to the placeholder. -/
theorem title_claim_counterexample :
    extractTitle "" (some "") = "No title found" ∧
    claimExtractTitle "" (some "") = "" ∧
    extractTitle "" (some "") ≠ claimExtractTitle "" (some "") := by
  refine ⟨rfl, rfl, ?_⟩
  decide

/-- C7 (amended).  The extracted title is the trimmed `<title>` text when
that is non-empty; otherwise the `og:title` content when present AND
non-empty; otherwise (tag absent or content empty) the literal
`"No title found"`. -/
theorem title_fallback_amended (titleText : String)
    (ogTitle : Option String) :
    (jsTrim titleText ≠ "" →
      extractTitle titleText ogTitle = jsTrim titleText) ∧
    (jsTrim titleText = "" → ∀ s, ogTitle = some s → s ≠ "" →
      extractTitle titleText ogTitle = s) ∧
    (jsTrim titleText = "" → (ogTitle = none ∨ ogTitle = some "") →
      extractTitle titleText ogTitle = "No title found") := by
  refine ⟨?_, ?_, ?_⟩
  · intro h
    simp [extractTitle, jsTruthy, h]
  · intro h s hog hs
    subst hog
    simp [extractTitle, jsTruthy, h, hs]
  · intro h hog
    rcases hog with rfl | rfl <;> simp [extractTitle, jsTruthy, h]

/-- Witness for the amended C7: each of the three branches at a concrete
document. -/
theorem title_fallback_amended_witness :
    extractTitle " Example Domain " none = "Example Domain" ∧
    extractTitle "" (some "OG Title") = "OG Title" ∧
    extractTitle "" none = "No title found" :=
  ⟨(title_fallback_amended " Example Domain " none).1 (by decide),
   (title_fallback_amended "" (some "OG Title")).2.1 (by decide) "OG Title"
     rfl (by decide),
   (title_fallback_amended "" none).2.2 (by decide) (Or.inl rfl)⟩

/-! ## C8: favicon resolution -/

/-- C8.  The favicon URL: when no selector yields a truthy `href`, the
synthesized `{protocol}//{hostname}/favicon.ico`; when the first truthy
`href` is root-relative (leading `/`), it is resolved against the target
URL's scheme+host; and the first selector (`link[rel="icon"]`) takes
precedence whenever its `href` is truthy. -/
theorem favicon_resolution (doc : HtmlDoc) (u : UrlParts) :
    (firstTruthy (selectorHrefs doc) = none →
      extractFavicon doc u =
        u.protocol ++ "//" ++ u.hostname ++ "/favicon.ico") ∧
    (∀ h, firstTruthy (selectorHrefs doc) = some h →
      jsStartsWith h "/" = true →
      extractFavicon doc u = u.protocol ++ "//" ++ u.hostname ++ h) ∧
    (jsTruthy doc.relIcon = true →
      firstTruthy (selectorHrefs doc) = doc.relIcon) := by
  refine ⟨?_, ?_, ?_⟩
  · intro h
    simp [extractFavicon, h]
  · intro href hf hs
    simp [extractFavicon, hf, hs]
  · intro h
    cases hic : doc.relIcon with
    | none => rw [hic] at h; simp [jsTruthy] at h
    | some v =>
        rw [hic] at h
        simp [selectorHrefs, firstTruthy, hic, h]

/-- Witness for C8: a relative `href="/icon.png"` from the `rel="icon"`
selector on `https://example.com/page` resolves to
`https://example.com/icon.png`. -/
theorem favicon_resolution_witness :
    extractFavicon
      ⟨"Example", none, none, none, some "/icon.png", none, none, none, none⟩
      ⟨"https:", "example.com"⟩ = "https://example.com/icon.png" := by
  have h := (favicon_resolution
      ⟨"Example", none, none, none, some "/icon.png", none, none, none, none⟩
      ⟨"https:", "example.com"⟩).2.1 "/icon.png" (by decide) (by decide)
  simpa using h

/-! ## C9: fetch failures degrade to a stored 200 "success" placeholder -/

theorem lookupMeta_upsert (st : MetaStore) (c : String) (r : MetaRecord) :
    lookupMeta (upsertMeta st c r) c = some r := by
  rw [lookupMeta, upsertMeta, List.find?_append]
  have hnone : (st.filter (fun row => row.1 != c)).find?
      (fun row => row.1 == c) = none := by
    rw [List.find?_eq_none]
    intro x hx
    have hmem := List.mem_filter.mp hx
    simp only [bne_iff_ne, ne_eq] at hmem
    simp only [beq_iff_eq]
    exact hmem.2
  rw [hnone]
  simp [List.find?]

/-- The failure path of `POST /api/metadata` in closed form: placeholder
response plus an upsert of the placeholder record.  Shared by the proofs
about the failure policy below. -/
theorem postMetadata_failure_eq (st : MetaStore) (sc lu msg : String)
    (u : UrlParts) (hsc : sc ≠ "") (hlu : lu ≠ "") :
    postMetadata st (some sc) (some lu) u (.failure msg) true =
      (.ok ⟨sc, lu, "Unable to fetch title",
            "Could not retrieve page information", none, "success"⟩,
       upsertMeta st sc ⟨lu, "Unable to fetch title",
            "Could not retrieve page information", none⟩) := by
  rw [postMetadata]
  simp [jsTruthy, hsc, hlu, fetchUrlMetadata]

/-- C9.  `POST /api/metadata` with both fields present and a failing
fetch: the handler answers 200 with the fixed placeholder metadata and
`status: "success"`, and stores that placeholder as the record for the
code, overwriting any prior record (the store `st` is arbitrary). -/
theorem metadata_fetch_failure_policy (st : MetaStore) (sc lu msg : String)
    (u : UrlParts) (hsc : sc ≠ "") (hlu : lu ≠ "") :
    metaRespStatus
      (postMetadata st (some sc) (some lu) u (.failure msg) true).1 = 200 ∧
    (postMetadata st (some sc) (some lu) u (.failure msg) true).1 =
      .ok ⟨sc, lu, "Unable to fetch title",
           "Could not retrieve page information", none, "success"⟩ ∧
    lookupMeta (postMetadata st (some sc) (some lu) u (.failure msg) true).2
        sc =
      some ⟨lu, "Unable to fetch title",
            "Could not retrieve page information", none⟩ := by
  rw [postMetadata_failure_eq st sc lu msg u hsc hlu]
  exact ⟨rfl, rfl, lookupMeta_upsert st sc _⟩

/-- Witness for C9: a store already holding a prior successful record for
`"abc123"` is overwritten by the placeholder. -/
theorem metadata_fetch_failure_policy_witness :
    metaRespStatus
      (postMetadata
        [("abc123", ⟨"https://old.example", "Old Title", "Old desc",
                     some "https://old.example/favicon.ico"⟩)]
        (some "abc123") (some "https://new.example")
        ⟨"https:", "new.example"⟩ (.failure "timeout of 5000ms exceeded")
        true).1 = 200 ∧
    (postMetadata
        [("abc123", ⟨"https://old.example", "Old Title", "Old desc",
                     some "https://old.example/favicon.ico"⟩)]
        (some "abc123") (some "https://new.example")
        ⟨"https:", "new.example"⟩ (.failure "timeout of 5000ms exceeded")
        true).1 =
      .ok ⟨"abc123", "https://new.example", "Unable to fetch title",
           "Could not retrieve page information", none, "success"⟩ ∧
    lookupMeta
      (postMetadata
        [("abc123", ⟨"https://old.example", "Old Title", "Old desc",
                     some "https://old.example/favicon.ico"⟩)]
        (some "abc123") (some "https://new.example")
        ⟨"https:", "new.example"⟩ (.failure "timeout of 5000ms exceeded")
        true).2 "abc123" =
      some ⟨"https://new.example", "Unable to fetch title",
            "Could not retrieve page information", none⟩ :=
  metadata_fetch_failure_policy
    [("abc123", ⟨"https://old.example", "Old Title", "Old desc",
                 some "https://old.example/favicon.ico"⟩)]
    "abc123" "https://new.example" "timeout of 5000ms exceeded"
    ⟨"https:", "new.example"⟩ (by decide) (by decide)

/-! ## C10: the placeholder favicon is null, and only failures yield null -/

/-- C10.  On any fetch/parse failure the metadata result carries a `null`
(`none`) favicon — the `{scheme}://{host}/favicon.ico` default is
synthesized only on successful fetches, whose favicon is always non-null
— and the `POST /api/metadata` failure path both returns and stores that
`null` favicon. -/
theorem metadata_failure_null_favicon (u : UrlParts) (msg : String)
    (st : MetaStore) (sc lu : String) (hsc : sc ≠ "") (hlu : lu ≠ "") :
    (fetchUrlMetadata u (.failure msg)).favicon_url = none ∧
    (∀ doc, ((fetchUrlMetadata u (.success doc)).favicon_url).isSome =
      true) ∧
    (∃ t d, (postMetadata st (some sc) (some lu) u (.failure msg) true).1 =
      .ok ⟨sc, lu, t, d, none, "success"⟩) ∧
    (∃ r, lookupMeta
        (postMetadata st (some sc) (some lu) u (.failure msg) true).2 sc =
      some r ∧ r.favicon_url = none) := by
  rw [postMetadata_failure_eq st sc lu msg u hsc hlu]
  refine ⟨rfl, fun doc => rfl, ?_, ?_⟩
  · exact ⟨"Unable to fetch title", "Could not retrieve page information",
           rfl⟩
  · exact ⟨⟨lu, "Unable to fetch title",
            "Could not retrieve page information", none⟩,
           lookupMeta_upsert st sc _, rfl⟩

/-- Witness for C10 at a concrete request whose fetch fails with a
connection error. -/
theorem metadata_failure_null_favicon_witness :
    (fetchUrlMetadata ⟨"http:", "dead.example"⟩
      (.failure "connect ECONNREFUSED")).favicon_url = none ∧
    (∀ doc, ((fetchUrlMetadata ⟨"http:", "dead.example"⟩
      (.success doc)).favicon_url).isSome = true) ∧
    (∃ t d, (postMetadata [] (some "zz9yy8") (some "http://dead.example")
        ⟨"http:", "dead.example"⟩ (.failure "connect ECONNREFUSED") true).1 =
      .ok ⟨"zz9yy8", "http://dead.example", t, d, none, "success"⟩) ∧
    (∃ r, lookupMeta
        (postMetadata [] (some "zz9yy8") (some "http://dead.example")
          ⟨"http:", "dead.example"⟩ (.failure "connect ECONNREFUSED")
          true).2 "zz9yy8" =
      some r ∧ r.favicon_url = none) :=
  metadata_failure_null_favicon ⟨"http:", "dead.example"⟩
    "connect ECONNREFUSED" [] "zz9yy8" "http://dead.example"
    (by decide) (by decide)
